import Mathlib

/-!
# SignTalk gesture classifier (`app.js`)

A shallow embedding of `detectGesture`, `checkIfHandOpen`, the `GESTURES`
table and the branch test of `updateDetectedWord`.

Numbers are taken in exact arithmetic over a linearly ordered field `K`
(rounding, overflow and infinities of IEEE doubles are not modelled); the one
special value kept is NaN, which is what an `undefined` coordinate becomes
under subtraction or comparison. `Math.sqrt` is a library function: it is a
parameter `sqrtK : K → K` of the model, instantiated with `Real.sqrt` where a
statement depends on what the square root is.
-/

set_option linter.unusedSectionVars false

namespace SignTalk

variable {K : Type} [LinearOrderedField K]

/-- A JavaScript number: NaN or an exact value. -/
inductive Num (K : Type) where
  | nan
  | val (v : K)
  deriving DecidableEq, Repr

namespace Num

/-- The JavaScript `a - b`. -/
def sub : Num K → Num K → Num K
  | val a, val b => val (a - b)
  | _, _ => nan

/-- The JavaScript `a + b` on numbers. -/
def add : Num K → Num K → Num K
  | val a, val b => val (a + b)
  | _, _ => nan

/-- The JavaScript `a * b`. -/
def mul : Num K → Num K → Num K
  | val a, val b => val (a * b)
  | _, _ => nan

/-- The call `Math.pow(a, 2)`. -/
def pow2 : Num K → Num K
  | val a => val (a ^ 2)
  | nan => nan

/-- The call `Math.sqrt(a)`: NaN on NaN and on negative arguments. -/
def sqrt (sqrtK : K → K) : Num K → Num K
  | val a => if a < 0 then nan else val (sqrtK a)
  | nan => nan

/-- The JavaScript `a < b`: false as soon as one side is NaN. -/
def lt : Num K → Num K → Bool
  | val a, val b => decide (a < b)
  | _, _ => false

/-- The JavaScript `a > b`. -/
def gt (a b : Num K) : Bool := lt b a

end Num

/-- The exception the code can raise: reading an index of `null` or `undefined`. -/
inductive JsError where
  | typeError
  deriving DecidableEq, Repr

/-- One slot of the `landmarks` array: `null`/`undefined`, or an array of numbers. -/
inductive Entry (K : Type) where
  | missing
  | point (coords : List K)
  deriving DecidableEq, Repr

/-- The read `p[i]`: raises on `null`/`undefined`, gives `undefined` (NaN once
used as a number) past the end of the array. -/
def Entry.idx : Entry K → Nat → Except JsError (Num K)
  | .missing, _ => .error .typeError
  | .point cs, i =>
    match cs[i]? with
    | some v => .ok (.val v)
    | none => .ok .nan

/-- The read `landmarks[i]`: `undefined` past the end of the array. -/
def nth (landmarks : List (Entry K)) (i : Nat) : Entry K :=
  landmarks.getD i .missing

/-- The local `dist` of `detectGesture`. -/
def dist (sqrtK : K → K) (p1 p2 : Entry K) : Except JsError (Num K) := do
  let a ← p1.idx 0
  let b ← p2.idx 0
  let c ← p1.idx 1
  let d ← p2.idx 1
  pure (Num.sqrt sqrtK (Num.add (Num.pow2 (Num.sub a b)) (Num.pow2 (Num.sub c d))))

/-- The table `fingerTips` of `checkIfHandOpen`. -/
def fingerTips : List Nat := [4, 8, 12, 16, 20]

/-- The table `fingerBases` of `checkIfHandOpen`. -/
def fingerBases : List Nat := [2, 6, 10, 14, 18]

/-- One pass of the loop body of `checkIfHandOpen` for finger `i`. -/
def countFinger (landmarks : List (Entry K)) (extendedFingers : Nat) (i : Nat) :
    Except JsError Nat := do
  let tipY ← (nth landmarks (fingerTips.getD i 0)).idx 1
  let baseY ← (nth landmarks (fingerBases.getD i 0)).idx 1
  if Num.lt tipY baseY then pure (extendedFingers + 1) else pure extendedFingers

/-- The function `checkIfHandOpen`; the argument is `none` for `null`/`undefined`. -/
def checkIfHandOpen (landmarks : Option (List (Entry K))) : Except JsError Bool :=
  match landmarks with
  | none => pure false
  | some lm =>
    if lm.length < 21 then pure false
    else do
      let extendedFingers ← [1, 2, 3, 4].foldlM (countFinger lm) 0
      pure (decide (extendedFingers ≥ 4))

/-- The function `detectGesture`; the argument is `none` for `null`/`undefined`,
the result `none` for `null`. -/
def detectGesture (sqrtK : K → K) (landmarks : Option (List (Entry K))) :
    Except JsError (Option String) :=
  match landmarks with
  | none => pure none
  | some lm =>
    if lm.length < 21 then pure none
    else do
      let wrist := nth lm 0
      let thumbTip := nth lm 4
      let indexTip := nth lm 8
      let middleTip := nth lm 12
      let ringTip := nth lm 16
      let pinkyTip := nth lm 20
      let thumbBase := nth lm 1
      let indexBase := nth lm 5
      let middleBase := nth lm 9
      let ringBase := nth lm 13
      let pinkyBase := nth lm 17
      let dist := dist sqrtK
      if (← checkIfHandOpen landmarks) then
        return some "hello"
      let thumbToMiddleDist ← dist thumbTip middleTip
      let thumbToMiddleBaseDist ← dist thumbTip middleBase
      if Num.lt thumbToMiddleDist (Num.mul thumbToMiddleBaseDist (.val 0.3)) then
        return some "thanks"
      let thumbToIndexDist ← dist thumbTip indexTip
      let thumbToIndexBaseDist ← dist thumbTip indexBase
      if Num.lt thumbToIndexDist (Num.mul thumbToIndexBaseDist (.val 0.3)) then
        let middleExtended :=
          Num.gt (← dist middleTip wrist) (Num.mul (← dist middleBase wrist) (.val 1.2))
        let ringExtended :=
          Num.gt (← dist ringTip wrist) (Num.mul (← dist ringBase wrist) (.val 1.2))
        let pinkyExtended :=
          Num.gt (← dist pinkyTip wrist) (Num.mul (← dist pinkyBase wrist) (.val 1.2))
        if !middleExtended && !ringExtended && !pinkyExtended then
          return some "yes"
      let indexExtended :=
        Num.gt (← dist indexTip wrist) (Num.mul (← dist indexBase wrist) (.val 1.3))
      let middleClosed :=
        Num.lt (← dist middleTip wrist) (Num.mul (← dist middleBase wrist) (.val 1.1))
      let ringClosed :=
        Num.lt (← dist ringTip wrist) (Num.mul (← dist ringBase wrist) (.val 1.1))
      let pinkyClosed :=
        Num.lt (← dist pinkyTip wrist) (Num.mul (← dist pinkyBase wrist) (.val 1.1))
      let thumbClosed :=
        Num.lt (← dist thumbTip wrist) (Num.mul (← dist thumbBase wrist) (.val 1.1))
      if indexExtended && middleClosed && ringClosed && pinkyClosed && thumbClosed then
        return some "no"
      let thumbExtended :=
        Num.gt (← dist thumbTip wrist) (Num.mul (← dist thumbBase wrist) (.val 1.3))
      let pinkyExtended :=
        Num.gt (← dist pinkyTip wrist) (Num.mul (← dist pinkyBase wrist) (.val 1.3))
      let indexClosed :=
        Num.lt (← dist indexTip wrist) (Num.mul (← dist indexBase wrist) (.val 1.1))
      let middleRingClosed ←
        if Num.lt (← dist middleTip wrist) (Num.mul (← dist middleBase wrist) (.val 1.1)) then do
          pure (Num.lt (← dist ringTip wrist) (Num.mul (← dist ringBase wrist) (.val 1.1)))
        else pure false
      if thumbExtended && pinkyExtended && indexClosed && middleRingClosed then
        return some "help"
      return none

/-- The value the read `p[i]` gives when it does not raise. -/
def Entry.coord : Entry K → Nat → Num K
  | .missing, _ => .nan
  | .point cs, i =>
    match cs[i]? with
    | some v => .val v
    | none => .nan

/-- The value `dist(p1, p2)` gives when neither read raises. -/
def distVal (sqrtK : K → K) (p1 p2 : Entry K) : Num K :=
  Num.sqrt sqrtK (Num.add (Num.pow2 (Num.sub (p1.coord 0) (p2.coord 0)))
    (Num.pow2 (Num.sub (p1.coord 1) (p2.coord 1))))

/-- No slot of the array is `null` or `undefined`. -/
def NoMissing (lm : List (Entry K)) : Prop := ∀ e ∈ lm, e ≠ Entry.missing

/-- An entry that is a point with at least two coordinates. -/
def Entry.hasXY : Entry K → Bool
  | .point (_ :: _ :: _) => true
  | _ => false

/-- A hand in the sense of the data model: every entry is a point with an x and a y. -/
def WellFormed (lm : List (Entry K)) : Prop := ∀ e ∈ lm, e.hasXY = true

/-- The x coordinate of landmark `i`. -/
def px (lm : List (Entry K)) (i : Nat) : K :=
  match nth lm i with
  | .point (x :: _) => x
  | _ => 0

/-- The y coordinate of landmark `i`. -/
def py (lm : List (Entry K)) (i : Nat) : K :=
  match nth lm i with
  | .point (_ :: y :: _) => y
  | _ => 0

/-- The Euclidean distance between landmarks `i` and `j`, for the square root `sqrtK`. -/
def ed (sqrtK : K → K) (lm : List (Entry K)) (i j : Nat) : K :=
  sqrtK ((px lm i - px lm j) ^ 2 + (py lm i - py lm j) ^ 2)

/-- The value `checkIfHandOpen` returns on an array of at least 21 entries when no read
raises: the loop over fingers 1 to 4 counted four tips above their joints. -/
def handOpenVal (lm : List (Entry K)) : Bool :=
  decide (4 ≤ [1, 2, 3, 4].foldl (fun n i =>
    if Num.lt ((nth lm (fingerTips.getD i 0)).coord 1) ((nth lm (fingerBases.getD i 0)).coord 1)
    then n + 1 else n) 0)

/-- The value `detectGesture` returns after a failed hand-open check when no read raises. -/
def classifyVal (sqrtK : K → K) (lm : List (Entry K)) : Option String :=
  let d := fun i j => distVal sqrtK (nth lm i) (nth lm j)
  if Num.lt (d 4 12) (Num.mul (d 4 9) (.val 0.3)) then some "thanks"
  else if Num.lt (d 4 8) (Num.mul (d 4 5) (.val 0.3))
      && (!Num.gt (d 12 0) (Num.mul (d 9 0) (.val 1.2))
        && !Num.gt (d 16 0) (Num.mul (d 13 0) (.val 1.2))
        && !Num.gt (d 20 0) (Num.mul (d 17 0) (.val 1.2))) then some "yes"
  else if Num.gt (d 8 0) (Num.mul (d 5 0) (.val 1.3))
      && Num.lt (d 12 0) (Num.mul (d 9 0) (.val 1.1))
      && Num.lt (d 16 0) (Num.mul (d 13 0) (.val 1.1))
      && Num.lt (d 20 0) (Num.mul (d 17 0) (.val 1.1))
      && Num.lt (d 4 0) (Num.mul (d 1 0) (.val 1.1)) then some "no"
  else if Num.gt (d 4 0) (Num.mul (d 1 0) (.val 1.3))
      && Num.gt (d 20 0) (Num.mul (d 17 0) (.val 1.3))
      && Num.lt (d 8 0) (Num.mul (d 5 0) (.val 1.1))
      && (Num.lt (d 12 0) (Num.mul (d 9 0) (.val 1.1))
        && Num.lt (d 16 0) (Num.mul (d 13 0) (.val 1.1))) then some "help"
  else none

/-- The hand-open condition on a well-formed hand: each non-thumb fingertip (8, 12, 16, 20)
has a smaller y than the joint `fingerBases` pairs it with (6, 10, 14, 18). -/
def fingersUp (lm : List (Entry K)) : Prop :=
  py lm 8 < py lm 6 ∧ py lm 12 < py lm 10 ∧ py lm 16 < py lm 14 ∧ py lm 20 < py lm 18

instance (lm : List (Entry K)) : Decidable (fingersUp lm) := by
  unfold fingersUp; infer_instance

/-- The ordered rule list of the specification after Hello, on a well-formed hand, with
`d i j` the distance between landmarks `i` and `j` and landmark 0 the wrist: Thanks, Yes,
No, Help, else nothing; the first rule that matches gives the label. -/
def firstMatch (sqrtK : K → K) (lm : List (Entry K)) : Option String :=
  let d := ed sqrtK lm
  if d 4 12 < 0.3 * d 4 9 then some "thanks"
  else if d 4 8 < 0.3 * d 4 5
      ∧ ¬ (d 12 0 > 1.2 * d 9 0 ∨ d 16 0 > 1.2 * d 13 0 ∨ d 20 0 > 1.2 * d 17 0) then some "yes"
  else if d 8 0 > 1.3 * d 5 0
      ∧ d 12 0 < 1.1 * d 9 0 ∧ d 16 0 < 1.1 * d 13 0 ∧ d 20 0 < 1.1 * d 17 0
      ∧ d 4 0 < 1.1 * d 1 0 then some "no"
  else if d 4 0 > 1.3 * d 1 0 ∧ d 20 0 > 1.3 * d 17 0
      ∧ d 8 0 < 1.1 * d 5 0 ∧ d 12 0 < 1.1 * d 9 0 ∧ d 16 0 < 1.1 * d 13 0 then some "help"
  else none

/-- A landmark as the detector delivers it: x, y and a depth that the code never reads. -/
def pt (x y : K) : Entry K := .point [x, y, 0]

/-- An open hand held upright: the wrist at the bottom of the image, every finger straight. -/
def openHand : List (Entry K) :=
  [pt 100 200, pt 80 180, pt 65 165, pt 55 150, pt 45 135,
   pt 85 130, pt 83 100, pt 82 80, pt 81 60,
   pt 100 125, pt 100 92, pt 100 70, pt 100 50,
   pt 115 130, pt 117 100, pt 118 80, pt 119 62,
   pt 130 140, pt 134 118, pt 136 102, pt 138 88]

/-- The hand `openHand` with the thumb tip 4 placed on the middle fingertip 12. -/
def openPinchHand : List (Entry K) :=
  [pt 100 200, pt 80 180, pt 65 165, pt 55 150, pt 100 50,
   pt 85 130, pt 83 100, pt 82 80, pt 81 60,
   pt 100 125, pt 100 92, pt 100 70, pt 100 50,
   pt 115 130, pt 117 100, pt 118 80, pt 119 62,
   pt 130 140, pt 134 118, pt 136 102, pt 138 88]

/-- A half-closed hand: each non-thumb fingertip (8, 12, 16, 20) is above the base of its
finger (5, 9, 13, 17) but below the joint that follows the base (6, 10, 14, 18). -/
def fistHand : List (Entry K) :=
  [pt 100 200, pt 80 180, pt 65 165, pt 55 150, pt 50 140,
   pt 85 130, pt 85 100, pt 85 105, pt 85 115,
   pt 100 125, pt 100 95, pt 100 100, pt 100 110,
   pt 115 130, pt 115 100, pt 115 105, pt 115 115,
   pt 130 140, pt 130 115, pt 130 120, pt 130 128]

/-- The hand `fistHand` with the thumb tip 4 placed on the middle fingertip 12. -/
def middlePinchHand : List (Entry K) :=
  [pt 100 200, pt 80 180, pt 65 165, pt 55 150, pt 100 110,
   pt 85 130, pt 85 100, pt 85 105, pt 85 115,
   pt 100 125, pt 100 95, pt 100 100, pt 100 110,
   pt 115 130, pt 115 100, pt 115 105, pt 115 115,
   pt 130 140, pt 130 115, pt 130 120, pt 130 128]

/-- A bent hand whose thumb tip 4 is on the index fingertip 8, away from the index base 5
and from the middle fingertip 12. -/
def indexPinchHand : List (Entry K) :=
  [pt 100 200, pt 80 180, pt 75 160, pt 80 140, pt 85 118,
   pt 85 130, pt 85 105, pt 85 110, pt 85 118,
   pt 100 125, pt 100 95, pt 100 105, pt 100 113,
   pt 115 130, pt 115 100, pt 115 108, pt 115 118,
   pt 130 140, pt 130 115, pt 130 120, pt 130 128]

/-- A pointing hand: the index finger straight, the other fingers and the thumb folded. -/
def pointingHand : List (Entry K) :=
  [pt 100 200, pt 80 180, pt 82 170, pt 88 172, pt 90 175,
   pt 85 130, pt 85 100, pt 85 80, pt 85 60,
   pt 100 125, pt 100 95, pt 100 105, pt 100 120,
   pt 115 130, pt 115 105, pt 115 112, pt 115 125,
   pt 130 140, pt 130 120, pt 130 125, pt 130 135]

/-- The hand `openHand` with the slot of the index fingertip 8 holding `null`. -/
def holedHand : List (Entry K) :=
  [pt 100 200, pt 80 180, pt 65 165, pt 55 150, pt 45 135,
   pt 85 130, pt 83 100, pt 82 80, .missing,
   pt 100 125, pt 100 92, pt 100 70, pt 100 50,
   pt 115 130, pt 117 100, pt 118 80, pt 119 62,
   pt 130 140, pt 134 118, pt 136 102, pt 138 88]

/-- The hand `openHand` with a wrist that has a single coordinate. -/
def shortWristHand : List (Entry K) :=
  [.point [100], pt 80 180, pt 65 165, pt 55 150, pt 45 135,
   pt 85 130, pt 83 100, pt 82 80, pt 81 60,
   pt 100 125, pt 100 92, pt 100 70, pt 100 50,
   pt 115 130, pt 117 100, pt 118 80, pt 119 62,
   pt 130 140, pt 134 118, pt 136 102, pt 138 88]

/-- The hand `fistHand` with a thumb tip 4 that has a single coordinate. -/
def shortThumbHand : List (Entry K) :=
  [pt 100 200, pt 80 180, pt 65 165, pt 55 150, .point [50],
   pt 85 130, pt 85 100, pt 85 105, pt 85 115,
   pt 100 125, pt 100 95, pt 100 100, pt 100 110,
   pt 115 130, pt 115 100, pt 115 105, pt 115 115,
   pt 130 140, pt 130 115, pt 130 120, pt 130 128]

/-- The five labels `detectGesture` can return. -/
def labels : List String := ["hello", "thanks", "yes", "no", "help"]

/-- The own properties of the object literal `GESTURES`. -/
def GESTURES : List (String × String) :=
  [("hello", "مرحباً"), ("thanks", "شكراً"), ("yes", "نعم"), ("no", "لا"), ("help", "مساعدة")]

/-- The property names an object literal inherits from `Object.prototype` in a browser
(ECMAScript with its Annex B); each holds a function or an object, hence a truthy value. -/
def objectPrototypeKeys : List String :=
  ["constructor", "hasOwnProperty", "isPrototypeOf", "propertyIsEnumerable", "toLocaleString",
   "toString", "valueOf", "__proto__", "__defineGetter__", "__defineSetter__",
   "__lookupGetter__", "__lookupSetter__"]

/-- What a property read of `GESTURES` can give: `undefined`, one of its strings, or a
member inherited from `Object.prototype`. -/
inductive Val where
  | undefined
  | str (s : String)
  | inherited (name : String)
  deriving DecidableEq, Repr

/-- The property key a gesture value becomes: `null` reads the key `"null"`. -/
def propertyKey : Option String → String
  | none => "null"
  | some s => s

/-- The read `GESTURES[gesture]`: an own property first, then the prototype chain. -/
def getGesture (gesture : Option String) : Val :=
  match GESTURES.lookup (propertyKey gesture) with
  | some word => .str word
  | none =>
    if propertyKey gesture ∈ objectPrototypeKeys then .inherited (propertyKey gesture)
    else .undefined

/-- A result allowed by the closed label set: `null`, or one of the five labels, which is
then an own key of `GESTURES` and reads as its display word. -/
def Allowed (r : Option String) : Prop :=
  r = none ∨ ∃ g, r = some g ∧ g ∈ labels
    ∧ ∃ word, GESTURES.lookup g = some word ∧ getGesture (some g) = Val.str word

/-- Every normal return of a computation is allowed. -/
def RangeOk (x : Except JsError (Option String)) : Prop := ∀ r, x = .ok r → Allowed r

theorem nth_mem {lm : List (Entry K)} {i : Nat} (h : i < lm.length) : nth lm i ∈ lm := by
  unfold nth
  rw [List.getD_eq_getElem lm _ h]
  exact List.getElem_mem h

theorem idx_eq_coord {e : Entry K} (h : e ≠ Entry.missing) (i : Nat) :
    e.idx i = .ok (e.coord i) := by
  cases e with
  | missing => exact absurd rfl h
  | point cs =>
    simp only [Entry.idx, Entry.coord]
    cases cs[i]? <;> rfl

theorem dist_eq_distVal (sqrtK : K → K) {p1 p2 : Entry K} (h1 : p1 ≠ Entry.missing)
    (h2 : p2 ≠ Entry.missing) : dist sqrtK p1 p2 = .ok (distVal sqrtK p1 p2) := by
  simp [dist, distVal, idx_eq_coord h1, idx_eq_coord h2, bind, Except.bind, pure, Except.pure]

theorem nth_ne_missing {lm : List (Entry K)} (hm : NoMissing lm) (hlen : 21 ≤ lm.length)
    {i : Nat} (hi : i ≤ 20) : nth lm i ≠ Entry.missing :=
  hm _ (nth_mem (by omega))

theorem coord_zero_wf {lm : List (Entry K)} (hw : WellFormed lm) (hlen : 21 ≤ lm.length)
    {i : Nat} (hi : i ≤ 20) : (nth lm i).coord 0 = .val (px lm i) := by
  have h := hw _ (nth_mem (show i < lm.length by omega))
  unfold px
  cases hn : nth lm i with
  | missing => simp [hn, Entry.hasXY] at h
  | point cs =>
    match cs, hn, h with
    | x :: y :: r, _, _ => simp [Entry.coord]
    | [], hn, h => simp [hn, Entry.hasXY] at h
    | [_], hn, h => simp [hn, Entry.hasXY] at h

theorem coord_one_wf {lm : List (Entry K)} (hw : WellFormed lm) (hlen : 21 ≤ lm.length)
    {i : Nat} (hi : i ≤ 20) : (nth lm i).coord 1 = .val (py lm i) := by
  have h := hw _ (nth_mem (show i < lm.length by omega))
  unfold py
  cases hn : nth lm i with
  | missing => simp [hn, Entry.hasXY] at h
  | point cs =>
    match cs, hn, h with
    | x :: y :: r, _, _ => simp [Entry.coord]
    | [], hn, h => simp [hn, Entry.hasXY] at h
    | [_], hn, h => simp [hn, Entry.hasXY] at h

theorem WellFormed.noMissing {lm : List (Entry K)} (hw : WellFormed lm) : NoMissing lm := by
  intro e he h
  have := hw e he
  simp [h, Entry.hasXY] at this

theorem distVal_wf (sqrtK : K → K) {lm : List (Entry K)} (hw : WellFormed lm)
    (hlen : 21 ≤ lm.length) {i j : Nat} (hi : i ≤ 20) (hj : j ≤ 20) :
    distVal sqrtK (nth lm i) (nth lm j) = .val (ed sqrtK lm i j) := by
  have hnn : ¬ ((px lm i - px lm j) ^ 2 + (py lm i - py lm j) ^ 2 < 0) :=
    not_lt.mpr (by positivity)
  simp [distVal, ed, coord_zero_wf hw hlen hi, coord_zero_wf hw hlen hj,
    coord_one_wf hw hlen hi, coord_one_wf hw hlen hj, Num.sub, Num.pow2, Num.add, Num.sqrt, hnn]

theorem checkIfHandOpen_noMissing {lm : List (Entry K)} (hm : NoMissing lm)
    (hlen : 21 ≤ lm.length) : checkIfHandOpen (some lm) = .ok (handOpenVal lm) := by
  have h6 := nth_ne_missing hm hlen (show 6 ≤ 20 by omega)
  have h8 := nth_ne_missing hm hlen (show 8 ≤ 20 by omega)
  have h10 := nth_ne_missing hm hlen (show 10 ≤ 20 by omega)
  have h12 := nth_ne_missing hm hlen (show 12 ≤ 20 by omega)
  have h14 := nth_ne_missing hm hlen (show 14 ≤ 20 by omega)
  have h16 := nth_ne_missing hm hlen (show 16 ≤ 20 by omega)
  have h18 := nth_ne_missing hm hlen (show 18 ≤ 20 by omega)
  have h20 := nth_ne_missing hm hlen (show 20 ≤ 20 by omega)
  simp only [checkIfHandOpen, handOpenVal, countFinger, fingerTips, fingerBases,
    not_lt.mpr hlen, if_false, List.foldlM_cons, List.foldlM_nil, List.foldl_cons, List.foldl_nil,
    List.getD_cons_succ, List.getD_cons_zero, idx_eq_coord h6, idx_eq_coord h8,
    idx_eq_coord h10, idx_eq_coord h12, idx_eq_coord h14, idx_eq_coord h16, idx_eq_coord h18,
    idx_eq_coord h20, bind, Except.bind, pure, Except.pure]
  split_ifs <;> rfl

theorem detectGesture_noMissing (sqrtK : K → K) {lm : List (Entry K)} (hm : NoMissing lm)
    (hlen : 21 ≤ lm.length) :
    detectGesture sqrtK (some lm)
      = .ok (if handOpenVal lm then some "hello" else classifyVal sqrtK lm) := by
  have h0 := nth_ne_missing hm hlen (show 0 ≤ 20 by omega)
  have h1 := nth_ne_missing hm hlen (show 1 ≤ 20 by omega)
  have h4 := nth_ne_missing hm hlen (show 4 ≤ 20 by omega)
  have h5 := nth_ne_missing hm hlen (show 5 ≤ 20 by omega)
  have h8 := nth_ne_missing hm hlen (show 8 ≤ 20 by omega)
  have h9 := nth_ne_missing hm hlen (show 9 ≤ 20 by omega)
  have h12 := nth_ne_missing hm hlen (show 12 ≤ 20 by omega)
  have h13 := nth_ne_missing hm hlen (show 13 ≤ 20 by omega)
  have h16 := nth_ne_missing hm hlen (show 16 ≤ 20 by omega)
  have h17 := nth_ne_missing hm hlen (show 17 ≤ 20 by omega)
  have h20 := nth_ne_missing hm hlen (show 20 ≤ 20 by omega)
  simp only [detectGesture, checkIfHandOpen_noMissing hm hlen, classifyVal, not_lt.mpr hlen,
    if_false, dist_eq_distVal sqrtK h4 h12, dist_eq_distVal sqrtK h4 h9,
    dist_eq_distVal sqrtK h4 h8, dist_eq_distVal sqrtK h4 h5, dist_eq_distVal sqrtK h12 h0,
    dist_eq_distVal sqrtK h9 h0, dist_eq_distVal sqrtK h16 h0, dist_eq_distVal sqrtK h13 h0,
    dist_eq_distVal sqrtK h20 h0, dist_eq_distVal sqrtK h17 h0, dist_eq_distVal sqrtK h8 h0,
    dist_eq_distVal sqrtK h5 h0, dist_eq_distVal sqrtK h4 h0, dist_eq_distVal sqrtK h1 h0,
    bind, Except.bind, pure, Except.pure]
  cases handOpenVal lm
  · simp; split_ifs <;> simp_all
  · simp

theorem handOpenVal_wf {lm : List (Entry K)} (hw : WellFormed lm) (hlen : 21 ≤ lm.length) :
    handOpenVal lm = decide (fingersUp lm) := by
  simp only [handOpenVal, fingersUp, fingerTips, fingerBases, List.foldl_cons, List.foldl_nil,
    List.getD_cons_succ, List.getD_cons_zero,
    coord_one_wf hw hlen (show 6 ≤ 20 by omega), coord_one_wf hw hlen (show 8 ≤ 20 by omega),
    coord_one_wf hw hlen (show 10 ≤ 20 by omega), coord_one_wf hw hlen (show 12 ≤ 20 by omega),
    coord_one_wf hw hlen (show 14 ≤ 20 by omega), coord_one_wf hw hlen (show 16 ≤ 20 by omega),
    coord_one_wf hw hlen (show 18 ≤ 20 by omega), coord_one_wf hw hlen (show 20 ≤ 20 by omega),
    Num.lt]
  by_cases h1 : py lm 8 < py lm 6 <;> by_cases h2 : py lm 12 < py lm 10 <;>
    by_cases h3 : py lm 16 < py lm 14 <;> by_cases h4 : py lm 20 < py lm 18 <;>
    simp [h1, h2, h3, h4]

theorem classifyVal_wf (sqrtK : K → K) {lm : List (Entry K)} (hw : WellFormed lm)
    (hlen : 21 ≤ lm.length) : classifyVal sqrtK lm = firstMatch sqrtK lm := by
  have e : ∀ i j, i ≤ 20 → j ≤ 20 →
      distVal sqrtK (nth lm i) (nth lm j) = .val (ed sqrtK lm i j) :=
    fun i j hi hj => distVal_wf sqrtK hw hlen hi hj
  simp only [classifyVal, firstMatch,
    e 4 12 (by omega) (by omega), e 4 9 (by omega) (by omega), e 4 8 (by omega) (by omega),
    e 4 5 (by omega) (by omega), e 12 0 (by omega) (by omega), e 9 0 (by omega) (by omega),
    e 16 0 (by omega) (by omega), e 13 0 (by omega) (by omega), e 20 0 (by omega) (by omega),
    e 17 0 (by omega) (by omega), e 8 0 (by omega) (by omega), e 5 0 (by omega) (by omega),
    e 4 0 (by omega) (by omega), e 1 0 (by omega) (by omega), Num.lt, Num.gt, Num.mul]
  simp only [mul_comm (ed sqrtK lm _ _) _, Bool.and_eq_true, Bool.not_eq_eq_eq_not, Bool.not_true, decide_eq_true_eq,
    decide_eq_false_iff_not, gt_iff_lt, not_or, and_assoc]

theorem detectGesture_wf (sqrtK : K → K) {lm : List (Entry K)} (hw : WellFormed lm)
    (hlen : 21 ≤ lm.length) :
    detectGesture sqrtK (some lm)
      = .ok (if fingersUp lm then some "hello" else firstMatch sqrtK lm) := by
  rw [detectGesture_noMissing sqrtK hw.noMissing hlen, handOpenVal_wf hw hlen,
    classifyVal_wf sqrtK hw hlen]
  simp

theorem checkIfHandOpen_wf {lm : List (Entry K)} (hw : WellFormed lm) (hlen : 21 ≤ lm.length) :
    checkIfHandOpen (some lm) = .ok (decide (fingersUp lm)) := by
  rw [checkIfHandOpen_noMissing hw.noMissing hlen, handOpenVal_wf hw hlen]


/-! ### Comparing square roots, and the model on the concrete hands -/

theorem sqrt_lt_scaled_iff {a b c : ℝ} (ha : 0 ≤ a) (hc : 0 ≤ c) :
    Real.sqrt a < c * Real.sqrt b ↔ a < c ^ 2 * b := by
  rw [← Real.sqrt_sq hc, ← Real.sqrt_mul (sq_nonneg c), Real.sqrt_sq hc,
    Real.sqrt_lt_sqrt_iff ha]

theorem scaled_sqrt_lt_iff {a b c : ℝ} (hb : 0 ≤ b) (hc : 0 ≤ c) :
    c * Real.sqrt b < Real.sqrt a ↔ c ^ 2 * b < a := by
  rw [← Real.sqrt_sq hc, ← Real.sqrt_mul (sq_nonneg c), Real.sqrt_sq hc,
    Real.sqrt_lt_sqrt_iff (mul_nonneg (sq_nonneg c) hb)]

theorem wf_openHand : WellFormed (openHand : List (Entry ℝ)) := by
  simp [WellFormed, openHand, pt, Entry.hasXY]

theorem wf_openPinchHand : WellFormed (openPinchHand : List (Entry ℝ)) := by
  simp [WellFormed, openPinchHand, pt, Entry.hasXY]

theorem wf_fistHand : WellFormed (fistHand : List (Entry ℝ)) := by
  simp [WellFormed, fistHand, pt, Entry.hasXY]

theorem wf_middlePinchHand : WellFormed (middlePinchHand : List (Entry ℝ)) := by
  simp [WellFormed, middlePinchHand, pt, Entry.hasXY]

theorem wf_indexPinchHand : WellFormed (indexPinchHand : List (Entry ℝ)) := by
  simp [WellFormed, indexPinchHand, pt, Entry.hasXY]

theorem wf_pointingHand : WellFormed (pointingHand : List (Entry ℝ)) := by
  simp [WellFormed, pointingHand, pt, Entry.hasXY]

theorem eval_openHand :
    detectGesture Real.sqrt (some (openHand : List (Entry ℝ))) = .ok (some "hello") := by
  rw [detectGesture_wf Real.sqrt wf_openHand (by simp [openHand])]
  norm_num [fingersUp, py, nth, openHand, pt]

theorem eval_fistHand :
    detectGesture Real.sqrt (some (fistHand : List (Entry ℝ))) = .ok none := by
  rw [detectGesture_wf Real.sqrt wf_fistHand (by simp [fistHand])]
  norm_num [fingersUp, firstMatch, ed, px, py, nth, fistHand, pt, sqrt_lt_scaled_iff,
    scaled_sqrt_lt_iff]

theorem eval_middlePinchHand :
    detectGesture Real.sqrt (some (middlePinchHand : List (Entry ℝ))) = .ok (some "thanks") := by
  rw [detectGesture_wf Real.sqrt wf_middlePinchHand (by simp [middlePinchHand])]
  norm_num [fingersUp, firstMatch, ed, px, py, nth, middlePinchHand, pt, sqrt_lt_scaled_iff,
    scaled_sqrt_lt_iff]

theorem eval_indexPinchHand :
    detectGesture Real.sqrt (some (indexPinchHand : List (Entry ℝ))) = .ok (some "yes") := by
  rw [detectGesture_wf Real.sqrt wf_indexPinchHand (by simp [indexPinchHand])]
  norm_num [fingersUp, firstMatch, ed, px, py, nth, indexPinchHand, pt, sqrt_lt_scaled_iff,
    scaled_sqrt_lt_iff]

theorem eval_pointingHand :
    detectGesture Real.sqrt (some (pointingHand : List (Entry ℝ))) = .ok (some "no") := by
  rw [detectGesture_wf Real.sqrt wf_pointingHand (by simp [pointingHand])]
  norm_num [fingersUp, firstMatch, ed, px, py, nth, pointingHand, pt, sqrt_lt_scaled_iff,
    scaled_sqrt_lt_iff]

theorem open_openPinchHand :
    checkIfHandOpen (some (openPinchHand : List (Entry ℝ))) = .ok true := by
  rw [checkIfHandOpen_wf wf_openPinchHand (by simp [openPinchHand])]
  norm_num [fingersUp, py, nth, openPinchHand, pt]

/-! ### C1: absent or short input -/

/-- C1: on an absent input (`null`/`undefined`) and on every array of fewer than 21 entries,
whatever the entries are, `detectGesture` returns `null` and does not raise. -/
theorem detectGesture_absent_or_short (sqrtK : K → K) (landmarks : Option (List (Entry K)))
    (h : landmarks = none ∨ ∃ lm, landmarks = some lm ∧ lm.length < 21) :
    detectGesture sqrtK landmarks = .ok none := by
  rcases h with rfl | ⟨lm, rfl, hlt⟩
  · rfl
  · simp [detectGesture, hlt, pure, Except.pure]

/-- C1 at concrete inputs: the absent input, and an array of twenty entries the first of
which is `null`. -/
theorem detectGesture_absent_or_short_witness :
    detectGesture Real.sqrt (none : Option (List (Entry ℝ))) = .ok none
      ∧ (Entry.missing :: List.replicate 19 (pt (1 : ℝ) 2)).length < 21
      ∧ detectGesture Real.sqrt (some (Entry.missing :: List.replicate 19 (pt (1 : ℝ) 2)))
          = .ok none :=
  ⟨detectGesture_absent_or_short Real.sqrt none (Or.inl rfl), by simp,
   detectGesture_absent_or_short Real.sqrt _ (Or.inr ⟨_, rfl, by simp⟩)⟩

/-! ### C2: the hand-open rule -/

/-- C2 as stated fails: on `fistHand` every non-thumb fingertip is strictly above the base
of its finger (y(L8) < y(L5), y(L12) < y(L9), y(L16) < y(L13), y(L20) < y(L17)), yet
`detectGesture` returns `null`, not `hello`. -/
theorem tips_above_bases_not_hello :
    WellFormed (fistHand : List (Entry ℝ)) ∧ (fistHand : List (Entry ℝ)).length = 21
      ∧ py (fistHand : List (Entry ℝ)) 8 < py (fistHand : List (Entry ℝ)) 5
      ∧ py (fistHand : List (Entry ℝ)) 12 < py (fistHand : List (Entry ℝ)) 9
      ∧ py (fistHand : List (Entry ℝ)) 16 < py (fistHand : List (Entry ℝ)) 13
      ∧ py (fistHand : List (Entry ℝ)) 20 < py (fistHand : List (Entry ℝ)) 17
      ∧ detectGesture Real.sqrt (some (fistHand : List (Entry ℝ))) = .ok none := by
  refine ⟨wf_fistHand, ?_, ?_, ?_, ?_, ?_, eval_fistHand⟩ <;>
    norm_num [py, nth, fistHand, pt]

/-- C2, amended: on every hand of at least 21 well-formed landmarks in which each non-thumb
fingertip has a smaller y than the joint `fingerBases` pairs it with (y(L8) < y(L6),
y(L12) < y(L10), y(L16) < y(L14), y(L20) < y(L18)), `detectGesture` returns `hello`,
whatever the other landmarks (the thumb among them) and whatever the square root are. -/
theorem detectGesture_hello_of_tips_above_joints (sqrtK : K → K) (lm : List (Entry K))
    (hw : WellFormed lm) (hlen : 21 ≤ lm.length)
    (h8 : py lm 8 < py lm 6) (h12 : py lm 12 < py lm 10)
    (h16 : py lm 16 < py lm 14) (h20 : py lm 20 < py lm 18) :
    detectGesture sqrtK (some lm) = .ok (some "hello") := by
  rw [detectGesture_wf sqrtK hw hlen, if_pos ⟨h8, h12, h16, h20⟩]

/-- C2, amended, at the concrete hand `openHand`. -/
theorem detectGesture_hello_of_tips_above_joints_witness :
    WellFormed (openHand : List (Entry ℝ)) ∧ 21 ≤ (openHand : List (Entry ℝ)).length
      ∧ py (openHand : List (Entry ℝ)) 8 < py (openHand : List (Entry ℝ)) 6
      ∧ py (openHand : List (Entry ℝ)) 12 < py (openHand : List (Entry ℝ)) 10
      ∧ py (openHand : List (Entry ℝ)) 16 < py (openHand : List (Entry ℝ)) 14
      ∧ py (openHand : List (Entry ℝ)) 20 < py (openHand : List (Entry ℝ)) 18
      ∧ detectGesture Real.sqrt (some (openHand : List (Entry ℝ))) = .ok (some "hello") := by
  have hlen : 21 ≤ (openHand : List (Entry ℝ)).length := by simp [openHand]
  have h8 : py (openHand : List (Entry ℝ)) 8 < py (openHand : List (Entry ℝ)) 6 := by
    norm_num [py, nth, openHand, pt]
  have h12 : py (openHand : List (Entry ℝ)) 12 < py (openHand : List (Entry ℝ)) 10 := by
    norm_num [py, nth, openHand, pt]
  have h16 : py (openHand : List (Entry ℝ)) 16 < py (openHand : List (Entry ℝ)) 14 := by
    norm_num [py, nth, openHand, pt]
  have h20 : py (openHand : List (Entry ℝ)) 20 < py (openHand : List (Entry ℝ)) 18 := by
    norm_num [py, nth, openHand, pt]
  exact ⟨wf_openHand, hlen, h8, h12, h16, h20,
    detectGesture_hello_of_tips_above_joints Real.sqrt openHand wf_openHand hlen h8 h12 h16
      h20⟩

/-! ### C3: the ordered rules after Hello -/

/-- C4: on every array of at least 21 entries on which the hand-open check holds and the
Thanks condition dist(L4, L12) < 0.3 * dist(L4, L9) holds too, `detectGesture` returns
`hello`. -/
theorem detectGesture_hello_before_thanks (sqrtK : K → K) (lm : List (Entry K))
    (hlen : 21 ≤ lm.length) (hopen : checkIfHandOpen (some lm) = .ok true)
    (_hthanks : ed sqrtK lm 4 12 < 0.3 * ed sqrtK lm 4 9) :
    detectGesture sqrtK (some lm) = .ok (some "hello") := by
  simp [detectGesture, hopen, not_lt.mpr hlen, bind, Except.bind, pure, Except.pure]

/-- C4 at the concrete hand `openPinchHand`, which is open and has the thumb tip on the
middle fingertip. -/
theorem detectGesture_hello_before_thanks_witness :
    21 ≤ (openPinchHand : List (Entry ℝ)).length
      ∧ checkIfHandOpen (some (openPinchHand : List (Entry ℝ))) = .ok true
      ∧ ed Real.sqrt (openPinchHand : List (Entry ℝ)) 4 12
          < 0.3 * ed Real.sqrt (openPinchHand : List (Entry ℝ)) 4 9
      ∧ detectGesture Real.sqrt (some (openPinchHand : List (Entry ℝ))) = .ok (some "hello") := by
  have hlen : 21 ≤ (openPinchHand : List (Entry ℝ)).length := by simp [openPinchHand]
  have ht : ed Real.sqrt (openPinchHand : List (Entry ℝ)) 4 12
      < 0.3 * ed Real.sqrt (openPinchHand : List (Entry ℝ)) 4 9 := by
    norm_num [ed, px, py, nth, openPinchHand, pt, sqrt_lt_scaled_iff]
  exact ⟨hlen, open_openPinchHand, ht,
    detectGesture_hello_before_thanks Real.sqrt openPinchHand hlen open_openPinchHand ht⟩

/-! ### C5: thumb tip on the middle fingertip -/

theorem rangeOk_bind {α : Type} (x : Except JsError α) (f : α → Except JsError (Option String))
    (h : ∀ a, RangeOk (f a)) : RangeOk (x >>= f) := by
  cases x with
  | error e => intro r hr; cases hr
  | ok a => exact h a

theorem rangeOk_ite (c : Prop) [Decidable c] (x y : Except JsError (Option String))
    (hx : RangeOk x) (hy : RangeOk y) : RangeOk (if c then x else y) := by
  split_ifs
  · exact hx
  · exact hy

theorem rangeOk_none : RangeOk (pure none) := by
  intro r hr
  cases hr
  exact Or.inl rfl

theorem rangeOk_label {g : String} (hg : g ∈ labels)
    (hw : ∃ word, GESTURES.lookup g = some word ∧ getGesture (some g) = Val.str word) :
    RangeOk (pure (some g)) := by
  intro r hr
  cases hr
  exact Or.inr ⟨g, rfl, hg, hw⟩

theorem detectGesture_rangeOk (sqrtK : K → K) (landmarks : Option (List (Entry K))) :
    RangeOk (detectGesture sqrtK landmarks) := by
  unfold detectGesture
  split
  · exact rangeOk_none
  · split
    · exact rangeOk_none
    · dsimp only
      repeat first
        | exact rangeOk_none
        | exact rangeOk_label (by simp [labels]) ⟨_, rfl, rfl⟩
        | (apply rangeOk_bind; intro _)
        | apply rangeOk_ite

/-- C9: on any input and with any square root, a value `detectGesture` returns is `null`
or one of the five labels `hello`, `thanks`, `yes`, `no`, `help`, and a label it returns is
an own key of `GESTURES`, so that reading it gives a display word; and `detectGesture` does
return on every input that is absent or has no `null` entry. -/
theorem detectGesture_result_in_labels (sqrtK : K → K) (landmarks : Option (List (Entry K))) :
    (∀ r, detectGesture sqrtK landmarks = .ok r →
        r = none ∨ ∃ g, r = some g ∧ g ∈ labels
          ∧ ∃ word, GESTURES.lookup g = some word ∧ getGesture (some g) = Val.str word)
      ∧ ((∀ lm, landmarks = some lm → NoMissing lm) →
          ∃ r, detectGesture sqrtK landmarks = .ok r) := by
  refine ⟨detectGesture_rangeOk sqrtK landmarks, ?_⟩
  intro hm
  cases landmarks with
  | none => exact ⟨none, rfl⟩
  | some lm =>
    by_cases hlt : lm.length < 21
    · exact ⟨none, by simp [detectGesture, hlt, pure, Except.pure]⟩
    · exact ⟨_, detectGesture_noMissing sqrtK (hm lm rfl) (not_lt.mp hlt)⟩

/-- C9 at the concrete hand `pointingHand`, whose result is the label `no`. -/
theorem detectGesture_result_in_labels_witness :
    detectGesture Real.sqrt (some (pointingHand : List (Entry ℝ))) = .ok (some "no")
      ∧ (some "no" = none
        ∨ ∃ g, some "no" = some g ∧ g ∈ labels
          ∧ ∃ word, GESTURES.lookup g = some word ∧ getGesture (some g) = Val.str word) :=
  ⟨eval_pointingHand,
   (detectGesture_result_in_labels Real.sqrt (some pointingHand)).1 (some "no")
     eval_pointingHand⟩

/-! ### C7: malformed entries -/

theorem coord_one_of_not_hasXY {e : Entry K} (h : e.hasXY = false) : e.coord 1 = Num.nan := by
  cases e with
  | missing => rfl
  | point cs =>
    match cs, h with
    | [], _ => rfl
    | [_], _ => rfl
    | _ :: _ :: _, h => simp [Entry.hasXY] at h

theorem distVal_nan_left (sqrtK : K → K) {p : Entry K} (h : p.coord 1 = Num.nan)
    (q : Entry K) : distVal sqrtK p q = Num.nan := by
  unfold distVal
  rw [h]
  cases Num.pow2 (Num.sub (p.coord 0) (q.coord 0)) <;> rfl

/-- C7 as stated fails, in two ways: `holedHand` has 21 entries of which the index fingertip
is `null`, and `detectGesture` raises on it; `shortWristHand` has 21 entries of which the
wrist has a single coordinate, and `detectGesture` returns `hello` on it. -/
theorem malformed_entry_not_null :
    ((holedHand : List (Entry ℝ)).length = 21
        ∧ Entry.missing ∈ (holedHand : List (Entry ℝ))
        ∧ detectGesture Real.sqrt (some (holedHand : List (Entry ℝ)))
            = .error JsError.typeError)
      ∧ ((shortWristHand : List (Entry ℝ)).length = 21
        ∧ Entry.point [100] ∈ (shortWristHand : List (Entry ℝ))
        ∧ detectGesture Real.sqrt (some (shortWristHand : List (Entry ℝ)))
            = .ok (some "hello")) := by
  refine ⟨⟨?_, ?_, ?_⟩, ⟨?_, ?_, ?_⟩⟩
  · simp [holedHand]
  · simp [holedHand]
  · norm_num [detectGesture, checkIfHandOpen, countFinger, nth, Entry.idx, Num.lt,
      fingerTips, fingerBases, bind, Except.bind, pure, Except.pure, holedHand, pt]
  · simp [shortWristHand]
  · simp [shortWristHand]
  · norm_num [detectGesture, checkIfHandOpen, countFinger, nth, Entry.idx, Num.lt,
      fingerTips, fingerBases, bind, Except.bind, pure, Except.pure, shortWristHand, pt]

/-- C7, amended: on every input of 21 or more entries none of which is `null`/`undefined`,
`detectGesture` does not raise, points with fewer than two coordinates included; and when
in addition the thumb tip L4 has fewer than two coordinates and the hand-open check is
false, it returns `null`. -/
theorem detectGesture_unvalidated_points (sqrtK : K → K) (lm : List (Entry K))
    (hlen : 21 ≤ lm.length) (hm : NoMissing lm) :
    (∃ r, detectGesture sqrtK (some lm) = .ok r)
      ∧ ((nth lm 4).hasXY = false → checkIfHandOpen (some lm) = .ok false →
          detectGesture sqrtK (some lm) = .ok none) := by
  refine ⟨⟨_, detectGesture_noMissing sqrtK hm hlen⟩, ?_⟩
  intro h4 hopen
  rw [checkIfHandOpen_noMissing hm hlen] at hopen
  have hv : handOpenVal lm = false := Except.ok.inj hopen
  have hn : ∀ q, distVal sqrtK (nth lm 4) q = Num.nan :=
    distVal_nan_left sqrtK (coord_one_of_not_hasXY h4)
  rw [detectGesture_noMissing sqrtK hm hlen, hv]
  simp [classifyVal, hn, Num.lt, Num.gt]

/-- C7, amended, at the concrete input `shortThumbHand`. -/
theorem detectGesture_unvalidated_points_witness :
    21 ≤ (shortThumbHand : List (Entry ℝ)).length
      ∧ NoMissing (shortThumbHand : List (Entry ℝ))
      ∧ (nth (shortThumbHand : List (Entry ℝ)) 4).hasXY = false
      ∧ checkIfHandOpen (some (shortThumbHand : List (Entry ℝ))) = .ok false
      ∧ detectGesture Real.sqrt (some (shortThumbHand : List (Entry ℝ))) = .ok none := by
  have hlen : 21 ≤ (shortThumbHand : List (Entry ℝ)).length := by simp [shortThumbHand]
  have hm : NoMissing (shortThumbHand : List (Entry ℝ)) := by
    simp [NoMissing, shortThumbHand, pt]
  have h4 : (nth (shortThumbHand : List (Entry ℝ)) 4).hasXY = false := by
    simp [nth, shortThumbHand, Entry.hasXY]
  have ho : checkIfHandOpen (some (shortThumbHand : List (Entry ℝ))) = .ok false := by
    norm_num [checkIfHandOpen, countFinger, nth, Entry.idx, Num.lt, fingerTips, fingerBases,
      bind, Except.bind, pure, Except.pure, shortThumbHand, pt]
  exact ⟨hlen, hm, h4, ho,
    (detectGesture_unvalidated_points Real.sqrt shortThumbHand hlen hm).2 h4 ho⟩

/-! ### C8: the lexicon -/

end SignTalk
